import Mathlib

set_option autoImplicit false

/-!
# StatusWorkload (fdbserver/workloads/StatusWorkload.actor.cpp): shallow embedding

This file embeds the status-probe workload: the schema matcher it invokes,
the coverage-requirement generator `schemaCoverageRequirements`, the four
`PerfIntCounter`s, the `check`/`getMetrics`/`start` member functions and one
iteration of the `fetcher` actor loop, and proves the specification claims
about them.
-/

namespace StatusWorkload

/-- JSON values as produced by `readJSONStrictly` (a json_spirit `mValue`).
An object (`json_spirit::mObject`, a `std::map<std::string, mValue>`) is
embedded as an association list of key/value pairs; the parser produces
duplicate-free key lists, and none of the development depends on ordering. -/
inductive JValue where
  | null
  | bool (b : Bool)
  | num (n : Int)
  | str (s : String)
  | arr (elems : List JValue)
  | obj (fields : List (String × JValue))

/-- `mObject.count(k) != 0`: whether the association list has key `k`. -/
def hasKey (kvs : List (String × JValue)) (k : String) : Bool :=
  kvs.any (fun kv => kv.1 == k)

/-- `mObject.at(k)` / `find(k)`: the value stored under key `k`, if any. -/
def lookupKey : List (String × JValue) → String → Option JValue
  | [], _ => none
  | (k', v) :: rest, k => if k' == k then some v else lookupKey rest k

/-- Membership test for the `$enum` directive: `allowed` must be an array and
`value` a string occurring among its string elements. -/
def enumMember (allowed : JValue) (value : JValue) : Bool :=
  match allowed, value with
  | .arr items, .str s =>
      items.any (fun it => match it with | .str t => t == s | _ => false)
  | _, _ => false

mutual

/-- Modelled from the spec: the recursive matcher `schemaMatch` lives in
`fdbclient` and is not part of this source tree (only its test caller is),
so it is transcribed from spec §4.1, rules 1–6, with `strict = true`:

1. object schema without `$enum`/`$map`: the value must be an object, every
   key of the value must occur in the schema (closed world), and each value
   field is validated against its schema entry; schema keys absent from the
   value are accepted.  (The two per-key passes of the spec are folded into
   one pass over the value's fields, which coincides for the duplicate-free
   key sets that JSON objects have.)
2. scalar schema entry: the value must have the same type class.
3. `$enum` directive: the value must be a string listed in the `$enum` array.
4. `$map` directive: the value must be an object and every value under every
   key is validated against the template; keys are unconstrained.
5. array schema `[template]`: the value must be an array and every element is
   validated against the template.

The if/else chain on the presence of `$enum`/`$map` is expressed by passing
the two lookups to the dispatch helpers `matchWithEnum`/`matchWithMap`. -/
def schemaMatch (schema value : JValue) : Bool :=
  match schema with
  | .obj skvs => matchWithEnum (lookupKey skvs "$enum") skvs value
  | .arr ts =>
    match ts, value with
    | [t], .arr vs => matchElems t vs
    | _, _ => false
  | .bool _ => match value with | .bool _ => true | _ => false
  | .num _ => match value with | .num _ => true | _ => false
  | .str _ => match value with | .str _ => true | _ => false
  | .null => match value with | .null => true | _ => false
termination_by (sizeOf value, 3)

/-- Dispatch on the `$enum` lookup of an object schema: rule 3 when present,
otherwise fall through to the `$map` dispatch. -/
def matchWithEnum : Option JValue → List (String × JValue) → JValue → Bool
  | some allowed, _, value => enumMember allowed value
  | none, skvs, value => matchWithMap (lookupKey skvs "$map") skvs value
termination_by _ _ value => (sizeOf value, 2)

/-- Dispatch on the `$map` lookup of an object schema: rule 4 when present,
otherwise the closed-world object rule 1. -/
def matchWithMap : Option JValue → List (String × JValue) → JValue → Bool
  | some tmpl, _, .obj vkvs => matchMapValues tmpl vkvs
  | some _, _, _ => false
  | none, skvs, .obj vkvs =>
      vkvs.all (fun kv => hasKey skvs kv.1) && matchValueFields skvs vkvs
  | none, _, _ => false
termination_by _ _ value => (sizeOf value, 1)

/-- Rule 1's recursive pass: each field of the value object is validated
against the schema entry of the same key (fields with no schema entry are
handled by the closed-world `hasKey` pass in `matchWithMap`). -/
def matchValueFields (skvs : List (String × JValue)) : List (String × JValue) → Bool
  | [] => true
  | (k, w) :: rest =>
    (match lookupKey skvs k with
     | some t => schemaMatch t w
     | none => true) && matchValueFields skvs rest
termination_by l => (sizeOf l, 0)

/-- Rule 4's pass: every value of the open dictionary is validated against
the `$map` template; the keys are ignored. -/
def matchMapValues (tmpl : JValue) : List (String × JValue) → Bool
  | [] => true
  | (_, w) :: rest => schemaMatch tmpl w && matchMapValues tmpl rest
termination_by l => (sizeOf l, 0)

/-- Rule 5's pass: every element of the value array is validated against the
array schema's single template. -/
def matchElems (tmpl : JValue) : List JValue → Bool
  | [] => true
  | v :: vs => schemaMatch tmpl v && matchElems tmpl vs
termination_by l => (sizeOf l, 0)

end

/-- The schema of `TEST_CASE("/fdbserver/status/schema/basic")`. -/
def basicSchema : JValue := .obj
  [ ("apple", .num 3)
  , ("banana", .str "foo")
  , ("sub", .obj [("thing", .bool true)])
  , ("arr", .arr [.obj [("a", .num 1), ("b", .num 2)]])
  , ("en", .obj [("$enum", .arr [.str "foo", .str "bar"])])
  , ("mapped", .obj [("$map", .obj [("x", .bool true)])]) ]

/-! ## Coverage-requirement generation (`schemaCoverageRequirements`, lines 84–108)

`schemaCoverage(path, false)` appends a required coverage path to a
process-wide registry; the registry is modelled by the list of registered
paths, in registration order, returned on success.  json_spirit's `get_obj`,
`get_array` and `get_str` throw a `std::runtime_error` carrying a message
when the value has the wrong type; the per-invocation `catch` logs that
detail and re-throws the generic flow error `unknown_error()`. -/

/-- Errors crossing the traversal: a json_spirit `std::runtime_error` with
its `what()` detail, or flow's generic `unknown_error()`. -/
inductive CovError where
  | runtimeError (what : String)
  | unknownError
  deriving Repr, DecidableEq

/-- The `catch` blocks of `schemaCoverageRequirements` (lines 101–107): any
exception is logged and re-signalled as the generic `unknown_error()`. -/
def collapseError : Except CovError (List String) → Except CovError (List String)
  | .ok ps => .ok ps
  | .error _ => .error .unknownError

mutual

/-- The loop body of `schemaCoverageRequirements` over the entries of the
schema object (lines 86–100): each entry registers its own dotted path
(line 89) and then contributes the paths of its sub-walk.  An exception
aborts the remaining entries. -/
def requirementsBody : List (String × JValue) → String → Except CovError (List String)
  | [], _ => .ok []
  | (k, v) :: rest, schema_path =>
    Except.bind (covEntry v (schema_path ++ "." ++ k)) (fun sub =>
      Except.bind (requirementsBody rest schema_path) (fun tail =>
        .ok ((schema_path ++ "." ++ k) :: (sub ++ tail))))
termination_by l => (sizeOf l, 0)

/-- Lines 91–99: a nonempty array entry recurses into `get_obj` of its first
element under `path[0]` (throwing if that element is not an object); an object
entry dispatches on the presence of `$enum`; anything else (scalars and the
empty array, which fails both the `array && size()` and the `obj` test)
registers nothing further. -/
def covEntry : JValue → String → Except CovError (List String)
  | .arr (.obj okvs :: _), spath => schemaCoverageRequirements okvs (spath ++ "[0]")
  | .arr (_ :: _), _ => .error (.runtimeError "get_obj called on non-object")
  | .arr [], _ => .ok []
  | .obj okvs, spath => covEntryEnum (lookupKey okvs "$enum") okvs spath
  | _, _ => .ok []
termination_by v _ => (sizeOf v, 0)

/-- Lines 94–98: an object entry containing `$enum` registers
`path + ".$enum." + v` for each member of the `$enum` array (`get_array`
throwing on a non-array payload); otherwise recurse into the object under
the same path. -/
def covEntryEnum : Option JValue → List (String × JValue) → String → Except CovError (List String)
  | some (.arr items), _, spath => enumPaths items spath
  | some _, _, _ => .error (.runtimeError "get_array called on non-array")
  | none, okvs, spath => schemaCoverageRequirements okvs spath
termination_by _ okvs _ => (sizeOf okvs, 2)

/-- The `$enum` member loop (lines 95–96): `get_str` throws on a non-string
member. -/
def enumPaths : List JValue → String → Except CovError (List String)
  | [], _ => .ok []
  | .str s :: rest, spath =>
    Except.bind (enumPaths rest spath) (fun tail =>
      .ok ((spath ++ ".$enum." ++ s) :: tail))
  | _ :: _, _ => .error (.runtimeError "get_str called on non-string")
termination_by items _ => (sizeOf items, 0)

/-- `schemaCoverageRequirements(schema, schema_path)` (lines 84–108): walk the
schema, returning the required coverage paths in registration order, with any
traversal exception re-signalled as the single generic `unknown_error()`.
Recursive invocations go through this wrapped entry point, as in the source. -/
def schemaCoverageRequirements (schema : List (String × JValue)) (schema_path : String) :
    Except CovError (List String) :=
  collapseError (requirementsBody schema schema_path)
termination_by (sizeOf schema, 1)

end

/-- Whether a JSON value is a string (`str_type`). -/
def JValue.isStr : JValue → Bool
  | .str _ => true
  | _ => false

mutual

/-- The schema shapes on which the traversal of `requirementsBody` completes
without throwing: mirrors the recursion of `requirementsBody`/`covEntry`. -/
def covWellFormed : List (String × JValue) → Bool
  | [] => true
  | (_, v) :: rest => covNodeOk v && covWellFormed rest
termination_by l => (sizeOf l, 0)

/-- Well-formedness of one schema entry: a nonempty array must start with an
object whose contents are well-formed (a zero-element array is fine); an
object either carries a `$enum` whose payload is an array of strings, or is
itself a well-formed schema object; scalars are always fine. -/
def covNodeOk : JValue → Bool
  | .arr (.obj okvs :: _) => covWellFormed okvs
  | .arr (_ :: _) => false
  | .arr [] => true
  | .obj okvs => covNodeEnumOk (lookupKey okvs "$enum") okvs
  | _ => true
termination_by v => (sizeOf v, 0)

/-- Dispatch on the `$enum` lookup, as in `covEntryEnum`. -/
def covNodeEnumOk : Option JValue → List (String × JValue) → Bool
  | some (.arr items), _ => items.all JValue.isStr
  | some _, _ => false
  | none, okvs => covWellFormed okvs
termination_by _ okvs => (sizeOf okvs, 2)

end

/-! ## Counters, `check`, `getMetrics`, `start` and the `fetcher` loop -/

/-- The four `PerfIntCounter` members, in declaration order (line 35); each
starts at zero and is only ever incremented/accumulated by the probe loop. -/
structure Counters where
  requests : Nat
  replies : Nat
  errors : Nat
  totalSize : Nat
  deriving Repr, DecidableEq

/-- Counters as constructed by the workload constructor: all zero. -/
def initialCounters : Counters := ⟨0, 0, 0, 0⟩

/-- `check` (lines 70–72): the end-of-run predicate `errors.getValue() == 0`. -/
def check (c : Counters) : Bool := c.errors == 0

/-- One named metric pushed by `getMetrics`; the `averaged` flag of
`PerfMetric` is reporting plumbing and is omitted. -/
structure PerfMetric where
  name : String
  value : Nat
  deriving Repr, DecidableEq

/-- `getMetrics` (lines 74–82): only client 0 reports; the average reply size
is `totalSize / replies` guarded by `replies.getValue()` being nonzero
(C++ integer division on the nonnegative counter values). -/
def getMetrics (clientId : Nat) (c : Counters) : List PerfMetric :=
  if clientId != 0 then []
  else
    [ ⟨"Status requests issued", c.requests⟩
    , ⟨"Status replies received", c.replies⟩
    , ⟨"Average Reply Size", if c.replies != 0 then c.totalSize / c.replies else 0⟩
    , ⟨"Status Errors", c.errors⟩ ]

/-- Trace severities used by the workload. -/
inductive Severity where
  | SevInfo
  | SevError
  deriving Repr, DecidableEq

/-- Diagnostic trace events emitted by `start` and by the `fetcher` loop, with
the payload each carries.  The reply event's latency detail is wall-clock
plumbing and is omitted; the validation event carries the full offending
document (line 127's `detail("JSON", write_string(result))`). -/
inductive WEvent where
  | reply (replySize : Nat)
  | validationFailed (doc : JValue)
  | fetchError (code : Nat)
  | startError

/-- The severity each event is logged at: `StatusWorkloadReply` uses the
`TraceEvent` default (informational); the other three pass `SevError`. -/
def WEvent.severity : WEvent → Severity
  | .reply _ => .SevInfo
  | .validationFailed _ => .SevError
  | .fetchError _ => .SevError
  | .startError => .SevError

/-- `error_code_actor_cancelled`, the flow cancellation signal. -/
def error_code_actor_cancelled : Nat := 1101

/-- What one `StatusClient::statusFetcher` wait produces: a reply document
together with its serialized size (`BinaryWriter` length, computed by
plumbing), or a flow `Error` with its code. -/
inductive FetchOutcome where
  | ok (doc : JValue) (replySize : Nat)
  | err (code : Nat)

/-- How one iteration of the `loop` in `fetcher` ends: fall through to the
next `poisson` wait, or propagate a thrown error out of the actor. -/
inductive StepControl where
  | next
  | raised (code : Nat)
  deriving Repr, DecidableEq

/-- One iteration of the `fetcher` loop body (lines 115–135), after the
`poisson` wait: `++requests` precedes the fetch; a successful fetch bumps
`replies`, accumulates the serialized size into `totalSize`, logs the reply
and, when a schema is configured and `schemaMatch` rejects the document, logs
`StatusWorkloadValidationFailed` with the document; the `catch` block logs
and counts every non-cancellation error and re-throws unconditionally. -/
def fetcherIteration (parsedSchema : Option JValue) (c : Counters) (o : FetchOutcome) :
    Counters × List WEvent × StepControl :=
  let c1 : Counters := { c with requests := c.requests + 1 }
  match o with
  | .ok doc replySize =>
    let c2 : Counters :=
      { c1 with replies := c1.replies + 1, totalSize := c1.totalSize + replySize }
    let validationEvents : List WEvent :=
      match parsedSchema with
      | some s => if schemaMatch s doc then [] else [WEvent.validationFailed doc]
      | none => []
    (c2, WEvent.reply replySize :: validationEvents, .next)
  | .err code =>
    if code != error_code_actor_cancelled then
      ({ c1 with errors := c1.errors + 1 }, [WEvent.fetchError code], .raised code)
    else
      (c1, [], .raised code)

/-- The `fetcher` loop driven by a list of fetch outcomes, one per tick:
iterate while an iteration falls through, stop when it raises. -/
def runIterations (parsedSchema : Option JValue) : Counters → List FetchOutcome → Counters
  | c, [] => c
  | c, o :: os =>
    let r := fetcherIteration parsedSchema c o
    if r.2.2 = StepControl.next then runIterations parsedSchema r.1 os else r.1

/-- What `start` (lines 60–68) does before any fetch can happen. -/
inductive StartAction where
  | done (events : List WEvent)
  | probe

/-- `start`: non-zero clients return an immediately-ready `Void()` future; a
null cluster reference logs `StatusWorkloadStartError` and also returns
`Void()` (success) without starting `fetcher`; otherwise the `fetcher` actor
runs under the `testDuration` timeout. -/
def start (clientId : Nat) (clusterPresent : Bool) : StartAction :=
  if clientId != 0 then .done []
  else if !clusterPresent then .done [WEvent.startError]
  else .probe

/-! ## The twelve vectors of `TEST_CASE("/fdbserver/status/schema/basic")`,
validating the spec-modelled matcher against the in-tree tests, and sample
coverage walks -/

example : schemaMatch basicSchema (.obj []) = true := by
  simp +decide [basicSchema, schemaMatch, matchWithEnum, matchWithMap, matchValueFields, lookupKey, hasKey]

example : schemaMatch basicSchema (.obj [("apple", .num 4)]) = true := by
  simp +decide [basicSchema, schemaMatch, matchWithEnum, matchWithMap, matchValueFields, lookupKey, hasKey]

example : schemaMatch basicSchema (.obj [("apple", .str "wrongtype")]) = false := by
  simp +decide [basicSchema, schemaMatch, matchWithEnum, matchWithMap, matchValueFields, lookupKey, hasKey]

example : schemaMatch basicSchema (.obj [("extrathingy", .num 1)]) = false := by
  simp +decide [basicSchema, schemaMatch, matchWithEnum, matchWithMap, matchValueFields, lookupKey, hasKey]

example : schemaMatch basicSchema
    (.obj [("banana", .str "b"), ("sub", .obj [("thing", .bool false)])]) = true := by
  simp +decide [basicSchema, schemaMatch, matchWithEnum, matchWithMap, matchValueFields, lookupKey, hasKey]

example : schemaMatch basicSchema
    (.obj [("banana", .str "b"), ("sub", .obj [("thing", .bool false), ("x", .num 0)])]) = false := by
  simp +decide [basicSchema, schemaMatch, matchWithEnum, matchWithMap, matchValueFields, lookupKey, hasKey]

example : schemaMatch basicSchema
    (.obj [("arr", .arr [.obj [], .obj [("a", .num 0)]])]) = true := by
  simp +decide [basicSchema, schemaMatch, matchWithEnum, matchWithMap, matchValueFields, matchElems,
    lookupKey, hasKey]

example : schemaMatch basicSchema
    (.obj [("arr", .arr [.obj [("a", .num 0)], .obj [("c", .num 0)]])]) = false := by
  simp +decide [basicSchema, schemaMatch, matchWithEnum, matchWithMap, matchValueFields, matchElems,
    lookupKey, hasKey]

example : schemaMatch basicSchema (.obj [("en", .str "bar")]) = true := by
  simp +decide [basicSchema, schemaMatch, matchWithEnum, matchWithMap, matchValueFields, enumMember,
    lookupKey, hasKey]

example : schemaMatch basicSchema (.obj [("en", .str "baz")]) = false := by
  simp +decide [basicSchema, schemaMatch, matchWithEnum, matchWithMap, matchValueFields, enumMember,
    lookupKey, hasKey]

example : schemaMatch basicSchema
    (.obj [("mapped", .obj [("item1", .obj [("x", .bool false)]), ("item2", .obj [])])]) = true := by
  simp +decide [basicSchema, schemaMatch, matchWithEnum, matchWithMap, matchValueFields, matchMapValues,
    lookupKey, hasKey]

example : schemaMatch basicSchema
    (.obj [("mapped", .obj [("item1", .obj [("x", .bool false)]),
                            ("item2", .obj [("y", .num 1)])])]) = false := by
  simp +decide [basicSchema, schemaMatch, matchWithEnum, matchWithMap, matchValueFields, matchMapValues,
    lookupKey, hasKey]

example : schemaCoverageRequirements [("a", .arr [])] "" = .ok [".a"] := by
  simp [schemaCoverageRequirements, collapseError, requirementsBody, covEntry, Except.bind]

example : schemaCoverageRequirements
    [("en", .obj [("$enum", .arr [.str "foo", .str "bar"])])] "" =
    .ok [".en", ".en.$enum.foo", ".en.$enum.bar"] := by
  simp +decide [schemaCoverageRequirements, collapseError, requirementsBody, covEntry,
    covEntryEnum, enumPaths, lookupKey, Except.bind]

example : schemaCoverageRequirements [("a", .arr [.num 3])] "" =
    .error CovError.unknownError := by
  simp [schemaCoverageRequirements, collapseError, requirementsBody, covEntry, Except.bind]

/-! ## Claim theorems -/

/-- C8: the end-of-run check passes iff the errors counter is zero, and its
outcome depends only on the errors counter: requests, replies and totalSize
can change arbitrarily without affecting it. -/
theorem check_passes_iff_errors_zero (r p t e r' p' t' : Nat) :
    (check ⟨r, p, e, t⟩ = true ↔ e = 0) ∧ check ⟨r, p, e, t⟩ = check ⟨r', p', e, t'⟩ := by
  simp [check]

/-- C9: the third metric reported by the designated client is the average
reply size, `totalSize / replies` when `replies` is nonzero and `0` when
`replies` is zero — the division is guarded by the `replies` test. -/
theorem average_reply_size_guarded (c : Counters) :
    (getMetrics 0 c)[2]? =
      some ⟨"Average Reply Size", if c.replies = 0 then 0 else c.totalSize / c.replies⟩
    ∧ (c.replies ≠ 0 →
        (getMetrics 0 c)[2]? = some ⟨"Average Reply Size", c.totalSize / c.replies⟩)
    ∧ (c.replies = 0 → (getMetrics 0 c)[2]? = some ⟨"Average Reply Size", 0⟩) := by
  by_cases h : c.replies = 0 <;> simp [getMetrics, h]

theorem average_reply_size_guarded_witness :
    (getMetrics 0 ⟨5, 2, 0, 10⟩)[2]? = some ⟨"Average Reply Size", 5⟩ ∧
    (getMetrics 0 ⟨7, 0, 0, 9⟩)[2]? = some ⟨"Average Reply Size", 0⟩ :=
  ⟨(average_reply_size_guarded ⟨5, 2, 0, 10⟩).2.1 (by decide),
   (average_reply_size_guarded ⟨7, 0, 0, 9⟩).2.2 (by decide)⟩

/-- C10: on the designated client (`clientId = 0`) with a null cluster
reference, `start` logs one `StatusWorkloadStartError` event at error
severity and completes successfully at once, never starting the `fetcher`;
the counters stay at their all-zero initial values, so the end-of-run check
passes even though `requests` is zero. -/
theorem start_null_cluster_noop :
    start 0 false = .done [WEvent.startError]
    ∧ WEvent.severity .startError = .SevError
    ∧ start 0 false ≠ .probe
    ∧ initialCounters.requests = 0
    ∧ check initialCounters = true := by
  refine ⟨rfl, rfl, by simp [start], rfl, rfl⟩

/-- C1 counterexample: a fetch failure with a non-cancellation code (here 1)
does not let the loop continue: the `catch` block's `throw;` sits outside the
cancellation test, so the error is re-raised and the iteration does not fall
through to the next tick. -/
theorem fetch_error_does_not_continue :
    (fetcherIteration none initialCounters (.err 1)).2.2 = StepControl.raised 1
    ∧ (fetcherIteration none initialCounters (.err 1)).2.2 ≠ StepControl.next := by
  exact ⟨rfl, by simp [fetcherIteration, initialCounters, error_code_actor_cancelled]⟩

/-- C1 amended: on any non-cancellation fetch failure the loop logs
`StatusWorkloadError` at error severity and increments `errors`, and then —
like every failure — re-raises, terminating the loop; the cancellation signal
is re-raised without logging or counting. -/
theorem fetch_error_logged_counted_reraised (ps : Option JValue) (c : Counters) (code : Nat)
    (h : code ≠ error_code_actor_cancelled) :
    fetcherIteration ps c (.err code) =
      ({ c with requests := c.requests + 1, errors := c.errors + 1 },
        [WEvent.fetchError code], .raised code)
    ∧ WEvent.severity (.fetchError code) = .SevError
    ∧ fetcherIteration ps c (.err error_code_actor_cancelled) =
      ({ c with requests := c.requests + 1 }, [], .raised error_code_actor_cancelled) := by
  refine ⟨by simp [fetcherIteration, h], rfl, by simp [fetcherIteration]⟩

theorem fetch_error_logged_counted_reraised_witness :
    (1 : Nat) ≠ error_code_actor_cancelled ∧
    fetcherIteration none initialCounters (.err 1) =
      (⟨1, 0, 1, 0⟩, [WEvent.fetchError 1], .raised 1) :=
  ⟨by decide, (fetch_error_logged_counted_reraised none initialCounters 1 (by decide)).1⟩

/-- C6: whatever the schema, `schemaCoverageRequirements` either succeeds or
returns the single generic `unknown_error()`: the detailed runtime error
raised inside the traversal never reaches the caller. -/
theorem coverage_error_is_generic (schema : List (String × JValue)) (path : String) :
    (∃ ps, schemaCoverageRequirements schema path = .ok ps)
    ∨ schemaCoverageRequirements schema path = .error CovError.unknownError := by
  have h : schemaCoverageRequirements schema path
      = collapseError (requirementsBody schema path) := by
    rw [schemaCoverageRequirements]
  rw [h]
  cases requirementsBody schema path with
  | ok ps => exact Or.inl ⟨ps, rfl⟩
  | error e => exact Or.inr rfl

/-- C4 counterexample: for the enum entry `"en"` at base path `""`, the
requirement list does contain the bare path `".en"` — line 89 registers every
entry's path before the `$enum` test — contradicting the claim that the bare
path is not registered. -/
theorem enum_bare_path_is_registered :
    schemaCoverageRequirements [("en", .obj [("$enum", .arr [.str "foo"])])] "" =
      .ok [".en", ".en.$enum.foo"]
    ∧ ".en" ∈ [".en", ".en.$enum.foo"] := by
  constructor
  · simp +decide [schemaCoverageRequirements, collapseError, requirementsBody, covEntry,
      covEntryEnum, enumPaths, lookupKey, Except.bind]
  · simp

/-- C4 amended: an enum-directive entry with key k under base path p registers
the bare path `p ++ "." ++ k` (the per-key registration every entry gets) and
then `p ++ "." ++ k ++ ".$enum." ++ v` for every allowed value v, in order,
and nothing else. -/
theorem enum_directive_registered_paths (k path : String) (vs : List String) :
    schemaCoverageRequirements [(k, .obj [("$enum", .arr (vs.map JValue.str))])] path =
      .ok ((path ++ "." ++ k) ::
        vs.map (fun v => path ++ "." ++ k ++ ".$enum." ++ v)) := by
  have he : enumPaths (vs.map JValue.str) (path ++ "." ++ k) =
      .ok (vs.map (fun v => path ++ "." ++ k ++ ".$enum." ++ v)) := by
    induction vs with
    | nil => simp [enumPaths]
    | cons v vs ih => simp [enumPaths, ih, Except.bind]
  simp +decide [schemaCoverageRequirements, collapseError, requirementsBody, covEntry,
    covEntryEnum, lookupKey, Except.bind, he]

/-- C5 counterexample: a schema whose entry is a zero-element array is not
rejected: the walk succeeds, registering only that entry's bare path, because
the empty array fails both the `array_type && size()` test and the `obj_type`
test and is silently skipped. -/
theorem empty_array_schema_accepted :
    schemaCoverageRequirements [("a", .arr [])] "" = .ok [".a"] := by
  simp [schemaCoverageRequirements, collapseError, requirementsBody, covEntry, Except.bind]

/-! ## Characterization lemmas for the matcher and the coverage walk -/

theorem except_bind_ok_iff {α β γ : Type} (x : Except γ α) (f : α → Except γ β) :
    (∃ b, Except.bind x f = .ok b) ↔ ∃ a, x = .ok a ∧ ∃ b, f a = .ok b := by
  cases x <;> simp [Except.bind]

theorem matchValueFields_eq_true_iff (S : List (String × JValue)) :
    ∀ V : List (String × JValue), (matchValueFields S V = true ↔
      ∀ kv ∈ V, ∀ t, lookupKey S kv.1 = some t → schemaMatch t kv.2 = true) := by
  intro V
  induction V with
  | nil => simp [matchValueFields]
  | cons kv rest ih =>
    obtain ⟨k, w⟩ := kv
    cases h : lookupKey S k with
    | some t => simp [matchValueFields, h, ih, List.forall_mem_cons]
    | none => simp [matchValueFields, h, ih, List.forall_mem_cons]

theorem matchMapValues_eq_true_iff (tmpl : JValue) :
    ∀ V : List (String × JValue), (matchMapValues tmpl V = true ↔
      ∀ kv ∈ V, schemaMatch tmpl kv.2 = true) := by
  intro V
  induction V with
  | nil => simp [matchMapValues]
  | cons kv rest ih =>
    obtain ⟨k, w⟩ := kv
    simp [matchMapValues, ih, List.forall_mem_cons]

/-- C2: for an object schema with neither directive, a value object matches
iff each of its fields is declared in the schema (an unknown field fails) and
matches that entry's schema; the condition ranges only over the value's
fields, so schema fields absent from the value impose nothing, and the empty
object matches every such schema. -/
theorem strict_closed_world_object_match (S V : List (String × JValue))
    (he : lookupKey S "$enum" = none) (hm : lookupKey S "$map" = none) :
    (schemaMatch (.obj S) (.obj V) = true ↔
      ∀ kv ∈ V, hasKey S kv.1 = true ∧
        ∀ t, lookupKey S kv.1 = some t → schemaMatch t kv.2 = true)
    ∧ schemaMatch (.obj S) (.obj []) = true := by
  have hchar : ∀ W : List (String × JValue), (schemaMatch (.obj S) (.obj W) = true ↔
      (∀ kv ∈ W, hasKey S kv.1 = true) ∧
      (∀ kv ∈ W, ∀ t, lookupKey S kv.1 = some t → schemaMatch t kv.2 = true)) := by
    intro W
    rw [schemaMatch, he, matchWithEnum, hm, matchWithMap]
    simp only [Bool.and_eq_true, List.all_eq_true, matchValueFields_eq_true_iff]
  constructor
  · rw [hchar V]
    constructor
    · rintro ⟨h1, h2⟩ kv hkv
      exact ⟨h1 kv hkv, h2 kv hkv⟩
    · intro h
      exact ⟨fun kv hkv => (h kv hkv).1, fun kv hkv => (h kv hkv).2⟩
  · rw [hchar []]
    simp

theorem strict_closed_world_object_match_witness :
    lookupKey [("a", JValue.num 1)] "$enum" = none ∧
    lookupKey [("a", JValue.num 1)] "$map" = none ∧
    schemaMatch (.obj [("a", JValue.num 1)]) (.obj []) = true :=
  ⟨rfl, rfl,
    (strict_closed_world_object_match [("a", JValue.num 1)] [] rfl rfl).2⟩

/-- C3: under a `$map` directive the value must be an object, and the match
succeeds iff every value under every key of that object matches the map's
template — the keys themselves are unconstrained. -/
theorem map_directive_open_dictionary (S : List (String × JValue)) (tmpl value : JValue)
    (he : lookupKey S "$enum" = none) (hm : lookupKey S "$map" = some tmpl) :
    schemaMatch (.obj S) value = true ↔
      ∃ vkvs, value = .obj vkvs ∧ ∀ kv ∈ vkvs, schemaMatch tmpl kv.2 = true := by
  rw [schemaMatch, he, matchWithEnum, hm]
  cases value
  case obj vkvs =>
    rw [matchWithMap]
    simp only [matchMapValues_eq_true_iff]
    constructor
    · intro hall
      exact ⟨vkvs, rfl, hall⟩
    · rintro ⟨vkvs', heq, hall⟩
      obtain rfl : vkvs = vkvs' := by injection heq
      exact hall
  all_goals
    refine iff_of_false ?_ (by rintro ⟨vkvs', heq, -⟩; cases heq)
    simp [matchWithMap]

theorem map_directive_open_dictionary_witness :
    lookupKey [("$map", JValue.bool true)] "$enum" = none ∧
    lookupKey [("$map", JValue.bool true)] "$map" = some (JValue.bool true) ∧
    schemaMatch (.obj [("$map", JValue.bool true)]) (.obj [("anykey", .bool false)]) = true := by
  refine ⟨rfl, rfl, ?_⟩
  refine (map_directive_open_dictionary [("$map", JValue.bool true)] (JValue.bool true)
      (.obj [("anykey", .bool false)]) rfl rfl).mpr ?_
  refine ⟨[("anykey", JValue.bool false)], rfl, ?_⟩
  intro kv hkv
  rw [List.mem_singleton] at hkv
  subst hkv
  simp [schemaMatch]

/-! ## The probe loop on successful replies (C7) -/

/-- Over any run of successful fetches the loop keeps falling through to the
next tick and never touches the errors counter. -/
theorem runIterations_ok_errors (ps : Option JValue) :
    ∀ (os : List FetchOutcome) (c : Counters),
      (∀ o ∈ os, ∃ d n, o = FetchOutcome.ok d n) →
      (runIterations ps c os).errors = c.errors := by
  intro os
  induction os with
  | nil => intro c _; rfl
  | cons o os ih =>
    intro c h
    obtain ⟨d, n, rfl⟩ := h o (List.mem_cons_self o os)
    have hctl : (fetcherIteration ps c (.ok d n)).2.2 = StepControl.next := rfl
    rw [runIterations]
    simp only [hctl, if_pos]
    rw [ih _ (fun o' ho' => h o' (List.mem_cons_of_mem _ ho'))]
    rfl

/-- C7: a validation mismatch logs `StatusWorkloadValidationFailed` at error
severity carrying the full offending document, the iteration still falls
through to the next tick, and the counters are exactly those of any
successful reply (the validation outcome does not influence them — in
particular `errors` is unchanged), so a run of successful replies passes the
end-of-run check no matter how many mismatches occurred. -/
theorem validation_mismatch_not_counted (s : JValue) (c : Counters) (doc : JValue) (n : Nat)
    (hmis : schemaMatch s doc = false) :
    fetcherIteration (some s) c (.ok doc n) =
      ({ c with requests := c.requests + 1, replies := c.replies + 1,
                totalSize := c.totalSize + n },
        [WEvent.reply n, WEvent.validationFailed doc], .next)
    ∧ WEvent.severity (.validationFailed doc) = .SevError
    ∧ (fetcherIteration (some s) c (.ok doc n)).1 = (fetcherIteration none c (.ok doc n)).1
    ∧ (fetcherIteration (some s) c (.ok doc n)).1.errors = c.errors
    ∧ ∀ os : List FetchOutcome, (∀ o ∈ os, ∃ d m, o = FetchOutcome.ok d m) →
        check (runIterations (some s) initialCounters os) = true := by
  refine ⟨by simp [fetcherIteration, hmis], rfl, rfl, rfl, ?_⟩
  intro os hos
  have h := runIterations_ok_errors (some s) os initialCounters hos
  simp [check, initialCounters] at h ⊢
  exact h

theorem validation_mismatch_not_counted_witness :
    schemaMatch (.num 0) (.str "x") = false ∧
    fetcherIteration (some (.num 0)) initialCounters (.ok (.str "x") 7) =
      (⟨1, 1, 0, 7⟩, [WEvent.reply 7, WEvent.validationFailed (.str "x")], .next) ∧
    check (runIterations (some (.num 0)) initialCounters [.ok (.str "x") 7]) = true := by
  have hmis : schemaMatch (JValue.num 0) (JValue.str "x") = false := by simp [schemaMatch]
  have h := validation_mismatch_not_counted (.num 0) initialCounters (.str "x") 7 hmis
  refine ⟨hmis, h.1, h.2.2.2.2 [.ok (.str "x") 7] ?_⟩
  intro o ho
  rw [List.mem_singleton] at ho
  exact ⟨_, _, ho⟩

/-! ## C5: success/failure characterization of the coverage walk -/

theorem collapseError_ok_iff (x : Except CovError (List String)) :
    (∃ ps, collapseError x = .ok ps) ↔ ∃ ps, x = .ok ps := by
  cases x <;> simp [collapseError]

theorem enumPaths_ok_iff : ∀ (items : List JValue) (spath : String),
    ((∃ ps, enumPaths items spath = .ok ps) ↔ items.all JValue.isStr = true) := by
  intro items
  induction items with
  | nil => intro spath; simp [enumPaths]
  | cons it rest ih =>
    intro spath
    cases it <;> simp [enumPaths, except_bind_ok_iff, ih, JValue.isStr]

theorem cov_ok_iff_aux (n : Nat) :
    (∀ (l : List (String × JValue)) (p : String), sizeOf l ≤ n →
      ((∃ ps, requirementsBody l p = .ok ps) ↔ covWellFormed l = true)) ∧
    (∀ (v : JValue) (p : String), sizeOf v ≤ n →
      ((∃ ps, covEntry v p = .ok ps) ↔ covNodeOk v = true)) := by
  induction n using Nat.strong_induction_on with
  | _ n ih =>
    constructor
    · intro l p hl
      cases l with
      | nil => simp [requirementsBody, covWellFormed]
      | cons kv rest =>
        obtain ⟨k, v⟩ := kv
        have hv : sizeOf v < n := by
          have h1 : sizeOf v < sizeOf ((k, v) :: rest) := by simp; omega
          omega
        have hrest : sizeOf rest < n := by
          have h1 : sizeOf rest < sizeOf ((k, v) :: rest) := by simp
          omega
        have ihv := (ih (sizeOf v) hv).2 v (p ++ "." ++ k) le_rfl
        have ihrest := (ih (sizeOf rest) hrest).1 rest p le_rfl
        simp [requirementsBody, except_bind_ok_iff, covWellFormed, Bool.and_eq_true,
          ihv, ihrest]
    · intro v p hv
      cases v with
      | null => simp [covEntry, covNodeOk]
      | bool b => simp [covEntry, covNodeOk]
      | num m => simp [covEntry, covNodeOk]
      | str s => simp [covEntry, covNodeOk]
      | arr elems =>
        cases elems with
        | nil => simp [covEntry, covNodeOk]
        | cons a0 tail =>
          cases a0 with
          | obj okvs =>
            have hsz : sizeOf okvs < n := by
              have h1 : sizeOf okvs < sizeOf (JValue.arr (JValue.obj okvs :: tail)) := by
                simp; omega
              omega
            have ihok := (ih (sizeOf okvs) hsz).1 okvs (p ++ "[0]") le_rfl
            simp [covEntry, covNodeOk, schemaCoverageRequirements, collapseError_ok_iff, ihok]
          | null => simp [covEntry, covNodeOk]
          | bool b => simp [covEntry, covNodeOk]
          | num m => simp [covEntry, covNodeOk]
          | str s => simp [covEntry, covNodeOk]
          | arr es => simp [covEntry, covNodeOk]
      | obj okvs =>
        cases hl : lookupKey okvs "$enum" with
        | some ev =>
          cases ev with
          | arr items =>
            simp [covEntry, covEntryEnum, hl, enumPaths_ok_iff, covNodeOk, covNodeEnumOk]
          | null => simp [covEntry, covEntryEnum, hl, covNodeOk, covNodeEnumOk]
          | bool b => simp [covEntry, covEntryEnum, hl, covNodeOk, covNodeEnumOk]
          | num m => simp [covEntry, covEntryEnum, hl, covNodeOk, covNodeEnumOk]
          | str s => simp [covEntry, covEntryEnum, hl, covNodeOk, covNodeEnumOk]
          | obj o2 => simp [covEntry, covEntryEnum, hl, covNodeOk, covNodeEnumOk]
        | none =>
          have hsz : sizeOf okvs < n := by
            have h1 : sizeOf okvs < sizeOf (JValue.obj okvs) := by simp
            omega
          have ihok := (ih (sizeOf okvs) hsz).1 okvs p le_rfl
          simp [covEntry, covEntryEnum, hl, schemaCoverageRequirements,
            collapseError_ok_iff, covNodeOk, covNodeEnumOk, ihok]

/-- C5 amended: `schemaCoverageRequirements` succeeds exactly on the schemas
accepted by `covWellFormed` — the only shapes that make it signal an error
are a nonempty array entry whose first element is not an object, a `$enum`
payload that is not an array, and a non-string enum member; in particular an
array-schema entry with zero elements is well-formed and is skipped without
error, not rejected. -/
theorem coverage_fails_iff_malformed (schema : List (String × JValue)) (path : String) :
    ((∃ ps, schemaCoverageRequirements schema path = .ok ps) ↔ covWellFormed schema = true)
    ∧ covWellFormed [("a", JValue.arr [])] = true := by
  constructor
  · have h : ∀ l q, schemaCoverageRequirements l q = collapseError (requirementsBody l q) := by
      intro l q
      rw [schemaCoverageRequirements]
    simp only [h]
    rw [collapseError_ok_iff]
    exact (cov_ok_iff_aux (sizeOf schema)).1 schema path le_rfl
  · simp [covWellFormed, covNodeOk]

end StatusWorkload
